import Mathlib

/-!
Verification development for the SkyChat repository (flight-route query
web application: React frontend, MariaDB schema, Flask backend).

The definitions below are shallow embeddings of the repository's code:

* `frontend/src/services/api.js` — the REST client (request construction);
* `Search.jsx` (route search page) and `NetworkViewer.jsx` — input
  handling for the route-lookup operations;
* `ChatMessage.jsx`, `RouteCard.jsx`, `AirportCard.jsx`,
  `NetworkViewer.jsx`/graph viewer — presentation of `distance_km`
  values and of chat result lists;
* `src/database/schema/01_create_tables.sql` — the relational schema;
* a model of the backend route-query service, which is not part of the
  checked-in sources; definitions for it are marked `Modelled from the
  spec:` and follow the specification text.

JavaScript strings are embedded as `String` (`toUpperCase` becomes
the charwise `jsToUpperCase`), JS numbers carrying distances as `ℚ`,
SQL `INT` columns as `Int`, nullable columns as `Option`.
-/

/-- JavaScript `String.prototype.toUpperCase()`: uppercase every
character. -/
def jsToUpperCase (s : String) : String := ⟨s.data.map Char.toUpper⟩

/- ## Section A: the REST client (frontend/src/services/api.js) -/

/-- Base URL configured on the axios instance in `api.js`. -/
def API_BASE_URL : String := "http://localhost:5002/api"

/-- An HTTP request issued by the frontend API layer: method plus full URL. -/
structure ApiRequest where
  method : String
  url : String
deriving DecidableEq

/-- The `api.get(path)` call of `api.js`: a GET against the base URL. -/
def apiGet (path : String) : ApiRequest :=
  { method := "GET", url := API_BASE_URL ++ path }

/-- Request built by `findDirectRoutes(from, to)` in `api.js`. -/
def findDirectRoutesReq (fromCode toCode : String) : ApiRequest :=
  apiGet ("/routes/direct?from=" ++ fromCode ++ "&to=" ++ toCode)

/-- Request built by `findRoutesWithStop(from, to)` in `api.js`. -/
def findRoutesWithStopReq (fromCode toCode : String) : ApiRequest :=
  apiGet ("/routes/with-stop?from=" ++ fromCode ++ "&to=" ++ toCode)

/-- Request built by `findShortestPath(from, to)` in `api.js`. -/
def findShortestPathReq (fromCode toCode : String) : ApiRequest :=
  apiGet ("/routes/shortest-path?from=" ++ fromCode ++ "&to=" ++ toCode)

/-- Request built by `getBusiestRoutes(limit)` in `api.js`. -/
def getBusiestRoutesReq (limit : Int) : ApiRequest :=
  apiGet ("/routes/busiest?limit=" ++ toString limit)

/-- Request built by `getLongestRoutes(limit)` in `api.js`. -/
def getLongestRoutesReq (limit : Int) : ApiRequest :=
  apiGet ("/routes/longest?limit=" ++ toString limit)

/-- Request built by `getHubAirports(minRoutes)` in `api.js`. -/
def getHubAirportsReq (minRoutes : Int) : ApiRequest :=
  apiGet ("/airports/hubs?min_routes=" ++ toString minRoutes)

/-- Default `limit` argument of `getBusiestRoutes` in `api.js`. -/
def apiBusiestDefaultLimit : Int := 10

/-- Default `limit` argument of `getLongestRoutes` in `api.js`. -/
def apiLongestDefaultLimit : Int := 10

/-- Default `minRoutes` argument of `getHubAirports` in `api.js`. -/
def apiHubsDefaultMinRoutes : Int := 50

/- ## Section B: the Search page (Search.jsx) -/

/-- The `maxLength="3"` attribute on both airport inputs of the Search
page's route form: the field value can never exceed 3 characters. -/
def searchRouteInputMaxLength : Nat := 3

/-- A string is enterable in a Search-page route field iff it fits the
HTML `maxLength` bound. -/
def searchRouteInputAdmits (s : String) : Prop :=
  s.length ≤ searchRouteInputMaxLength

instance (s : String) : Decidable (searchRouteInputAdmits s) := by
  unfold searchRouteInputAdmits; infer_instance

/-- The request a route search issues, by mode: `withStop` picks
`findRoutesWithStop`, otherwise `findDirectRoutes` (Search.jsx). -/
def routeSearchRequest (withStop : Bool) (fromCode toCode : String) : ApiRequest :=
  if withStop then findRoutesWithStopReq fromCode toCode
  else findDirectRoutesReq fromCode toCode

/-- The `handleRouteSearch` handler of Search.jsx: bails out (alert, no
request) when either field is empty, otherwise calls the API with both
codes passed through `toUpperCase()`. -/
def handleRouteSearch (withStop : Bool) (fromAirport toAirport : String) :
    Option ApiRequest :=
  if fromAirport.isEmpty || toAirport.isEmpty then none
  else some (routeSearchRequest withStop (jsToUpperCase fromAirport)
    (jsToUpperCase toAirport))

/- ## Section C: the NetworkViewer route finder (NetworkViewer.jsx) -/

/-- Outcome of submitting the NetworkViewer route-finder form: an error
message and the list of API requests actually issued. -/
structure RouteFinderOutcome where
  errorMsg : Option String
  requests : List ApiRequest
deriving DecidableEq

/-- The `handleRouteFinderSubmit` handler of NetworkViewer.jsx: empty
fields and `from === to` are rejected with an error message before any
API call; otherwise the direct and one-stop lookups are both issued. -/
def handleRouteFinderSubmit (fromCode toCode : String) : RouteFinderOutcome :=
  if fromCode.isEmpty || toCode.isEmpty then
    { errorMsg := some "Enter both origin and destination airport codes."
      requests := [] }
  else if fromCode = toCode then
    { errorMsg := some "Origin and destination must be different."
      requests := [] }
  else
    { errorMsg := none
      requests := [findDirectRoutesReq fromCode toCode,
                   findRoutesWithStopReq fromCode toCode] }

/- ## Section D: presentation of distances and chat results -/

/-- JavaScript `Math.round`: round to nearest, ties away from minus
infinity, i.e. `⌊x + 1/2⌋`. -/
def jsMathRound (x : ℚ) : ℤ := ⌊x + 1/2⌋

/-- Numeric value of the distance badge in ChatMessage.jsx
(`item.distance_km && … Math.round(item.distance_km) …`): `none` when
the field is absent or `0` (JS falsy guard), else the rounded value. -/
def chatMessageDistanceBadge (d : Option ℚ) : Option ℤ :=
  match d with
  | some v => if v = 0 then none else some (jsMathRound v)
  | none => none

/-- Numeric value rendered by RouteCard.jsx
(`route.distance_km && … Math.round(route.distance_km) …`). -/
def routeCardDistanceValue (d : Option ℚ) : Option ℤ :=
  match d with
  | some v => if v = 0 then none else some (jsMathRound v)
  | none => none

/-- Numeric value rendered by AirportCard.jsx
(`airport.distance && … Math.round(airport.distance) …`). -/
def airportCardDistanceValue (d : Option ℚ) : Option ℤ :=
  match d with
  | some v => if v = 0 then none else some (jsMathRound v)
  | none => none

/-- Numeric value inside `formatDistance` of NetworkViewer.jsx
(`value ? Math.round(value).toLocaleString() + " km" : "—"`); the
locale formatting only adds digit grouping around this integer. -/
def networkFormatDistanceValue (d : Option ℚ) : Option ℤ :=
  match d with
  | some v => if v = 0 then none else some (jsMathRound v)
  | none => none

/-- Numeric value of the path-distance label in the graph viewer
(`Math.round(path.total_distance)`, no truthiness guard). -/
def networkGraphPathDistanceValue (d : ℚ) : ℤ := jsMathRound d

/-- Result-card cap of the classic-chat renderer: `data.data.slice(0, 8)`
in ChatMessage.jsx. -/
def chatResultCardLimit : Nat := 8

/-- The items the classic-chat renderer shows as result cards:
`data.data.slice(0, 8)` of ChatMessage.jsx. -/
def renderedResultCards {α : Type} (data : List α) : List α :=
  data.take chatResultCardLimit

/-- The `+(n-8) more results` indicator of ChatMessage.jsx: present with
count `length - 8` exactly when `data.data.length > 8`. -/
def moreResultsIndicator {α : Type} (data : List α) : Option Nat :=
  if chatResultCardLimit < data.length then some (data.length - chatResultCardLimit)
  else none

/- ## Section E: the relational schema (01_create_tables.sql) -/

/-- A row of the `airports` table. Column order and nullability follow
`CREATE TABLE airports`: only `airport_id` (PRIMARY KEY) and `name`
(NOT NULL) are mandatory. -/
structure AirportRow where
  airport_id : Int
  name : String
  city : Option String
  country : Option String
  iata : Option String
  icao : Option String
  latitude : Option ℚ
  longitude : Option ℚ
  altitude : Option Int
  timezone_offset : Option ℚ
  dst : Option String
  tz_database : Option String
  typ : Option String
  src : Option String
deriving DecidableEq

/-- A row of the `airlines` table, per `CREATE TABLE airlines`. -/
structure AirlineRow where
  airline_id : Int
  name : String
  aliasName : Option String
  iata : Option String
  icao : Option String
  callsign : Option String
  country : Option String
  active : Option String
deriving DecidableEq

/-- A row of the `routes` table, per `CREATE TABLE routes`. Every
column except the surrogate `route_id` primary key is nullable; there
is no CHECK constraint, and `idx_route (source_airport_id,
dest_airport_id)` is a plain (non-UNIQUE) index. -/
structure RouteRow where
  route_id : Int
  airline_code : Option String
  airline_id : Option Int
  source_airport : Option String
  source_airport_id : Option Int
  dest_airport : Option String
  dest_airport_id : Option Int
  codeshare : Option String
  stops : Option Int
  equipment : Option String
deriving DecidableEq

/-- The three persisted tables of the SkyChat database. -/
structure SkyChatDb where
  airports : List AirportRow
  airlines : List AirlineRow
  routes : List RouteRow
deriving DecidableEq

/-- A nullable `VARCHAR(n)` / `CHAR(n)` column value fits its declared
width (NULL always fits). -/
def varcharOk (n : Nat) : Option String → Bool
  | none => true
  | some s => s.length ≤ n

/-- All entries of the list are pairwise distinct (PRIMARY KEY check). -/
def allDistinct : List Int → Bool
  | [] => true
  | x :: xs => !xs.contains x && allDistinct xs

/-- A nullable foreign-key column either is NULL or references one of
the listed key values. -/
def fkOkB (ids : List Int) : Option Int → Bool
  | none => true
  | some i => ids.contains i

/-- Width constraints of one `airports` row. -/
def airportRowOk (a : AirportRow) : Bool :=
  a.name.length ≤ 255 && varcharOk 255 a.city && varcharOk 255 a.country &&
  varcharOk 3 a.iata && varcharOk 4 a.icao && varcharOk 1 a.dst &&
  varcharOk 50 a.tz_database && varcharOk 50 a.typ && varcharOk 50 a.src

/-- Width constraints of one `airlines` row. -/
def airlineRowOk (l : AirlineRow) : Bool :=
  l.name.length ≤ 255 && varcharOk 255 l.aliasName && varcharOk 2 l.iata &&
  varcharOk 3 l.icao && varcharOk 255 l.callsign && varcharOk 255 l.country &&
  varcharOk 1 l.active

/-- Width constraints of one `routes` row. -/
def routeRowOk (r : RouteRow) : Bool :=
  varcharOk 3 r.airline_code && varcharOk 4 r.source_airport &&
  varcharOk 4 r.dest_airport && varcharOk 1 r.codeshare &&
  varcharOk 255 r.equipment

/-- Every constraint the schema of `01_create_tables.sql` declares:
primary-key uniqueness per table, column widths, and the three foreign
keys of `routes`. The schema declares nothing else — in particular no
`source_airport_id ≠ dest_airport_id` CHECK and no UNIQUE constraint on
`airports.iata` or on `(source_airport_id, dest_airport_id)`. -/
def schemaOkB (db : SkyChatDb) : Bool :=
  allDistinct (db.airports.map (fun a => a.airport_id)) &&
  db.airports.all airportRowOk &&
  allDistinct (db.airlines.map (fun l => l.airline_id)) &&
  db.airlines.all airlineRowOk &&
  allDistinct (db.routes.map (fun r => r.route_id)) &&
  db.routes.all (fun r =>
    routeRowOk r &&
    fkOkB (db.airports.map (fun a => a.airport_id)) r.source_airport_id &&
    fkOkB (db.airports.map (fun a => a.airport_id)) r.dest_airport_id &&
    fkOkB (db.airlines.map (fun l => l.airline_id)) r.airline_id)

/-- Propositional form of `schemaOkB`: the table state is admitted by
the schema. -/
def schemaOk (db : SkyChatDb) : Prop := schemaOkB db = true

instance (db : SkyChatDb) : Decidable (schemaOk db) := by
  unfold schemaOk; infer_instance

/- ## Section F: the route-graph query service (modelled from the spec) -/

/-- Error taxonomy of the route-graph query component (spec section 4.1). -/
inductive QueryError where
  | NotFound
  | InvalidInput
  | StoreUnavailable
deriving DecidableEq

/-- Modelled from the spec: the backend service (`app.py` and the
`route_service` query layer are not among the checked-in sources). Per
the spec, great-circle distances come from the haversine formula over
airport coordinates; that transcendental computation is injected here as
an abstract distance function on airport ids, per the spec's
dependency-injection design note. -/
structure RouteGraphQueryService where
  db : SkyChatDb
  dist : Int → Int → ℚ

/-- Modelled from the spec: resolve an airport code (IATA preferred,
ICAO accepted, case-insensitive via uppercase normalization) to an
airport row; `none` when no airport matches. -/
def resolveAirport (db : SkyChatDb) (code : String) : Option AirportRow :=
  let cu := jsToUpperCase code
  match db.airports.find? (fun a => decide (a.iata = some cu)) with
  | some a => some a
  | none => db.airports.find? (fun a => decide (a.icao = some cu))

/-- Modelled from the spec: `findDirectRoutes` — validation first
(`from == to` is `InvalidInput` before any store access), then code
resolution (`NotFound`), then the Route rows matching the resolved
(source, dest) pair. -/
def findDirectRoutesSvc (svc : RouteGraphQueryService) (fromCode toCode : String) :
    Except QueryError (List RouteRow) :=
  if jsToUpperCase fromCode = jsToUpperCase toCode then .error .InvalidInput
  else
    match resolveAirport svc.db fromCode, resolveAirport svc.db toCode with
    | none, _ => .error .NotFound
    | some _, none => .error .NotFound
    | some s, some d =>
        .ok (svc.db.routes.filter (fun r =>
          decide (r.source_airport_id = some s.airport_id ∧
                  r.dest_airport_id = some d.airport_id)))

/-- A one-stop itinerary: the two legs and the intermediate airport id
(spec: a Connection is an ordered pair of Routes with
`leg1.dest == leg2.source`). -/
structure OneStopItin where
  leg1 : RouteRow
  leg2 : RouteRow
  viaId : Int
deriving DecidableEq

/-- Modelled from the spec: the dedup key for one-stop itineraries —
itineraries identical up to the codeshare flag collapse to one. -/
def itinKey (i : OneStopItin) : Option Int × RouteRow × RouteRow :=
  (i.leg1.airline_id,
   { i.leg1 with codeshare := none },
   { i.leg2 with codeshare := none })

/-- Modelled from the spec: keep the first list entry for each dedup
key, dropping later codeshare duplicates. -/
def dedupItins (l : List OneStopItin) : List OneStopItin :=
  l.foldl (fun acc i =>
    if acc.any (fun j => decide (itinKey j = itinKey i)) then acc else acc ++ [i]) []

/-- Modelled from the spec: result-set cap of `findOneStopRoutes`
(default 50), applied after dedup. -/
def ONE_STOP_CAP : Nat := 50

/-- Modelled from the spec: `findOneStopRoutes` — validation, then code
resolution, then the join `R1.source = from ∧ R2.dest = to ∧ R1.dest =
R2.source`, excluding itineraries whose intermediate airport equals the
resolved source or destination, then codeshare dedup, then the cap. -/
def findOneStopRoutesSvc (svc : RouteGraphQueryService) (fromCode toCode : String) :
    Except QueryError (List OneStopItin) :=
  if jsToUpperCase fromCode = jsToUpperCase toCode then .error .InvalidInput
  else
    match resolveAirport svc.db fromCode, resolveAirport svc.db toCode with
    | none, _ => .error .NotFound
    | some _, none => .error .NotFound
    | some s, some d =>
        .ok ((dedupItins
          ((svc.db.routes.filter (fun r1 =>
              decide (r1.source_airport_id = some s.airport_id))).flatMap
            (fun r1 => svc.db.routes.filterMap (fun r2 =>
              match r1.dest_airport_id with
              | none => none
              | some via =>
                  if r2.source_airport_id = some via ∧
                     r2.dest_airport_id = some d.airport_id ∧
                     via ≠ s.airport_id ∧ via ≠ d.airport_id
                  then some { leg1 := r1, leg2 := r2, viaId := via }
                  else none)))).take ONE_STOP_CAP)

/-- Modelled from the spec: default result count of the aggregate
queries. -/
def LIMIT_DEFAULT : Nat := 10

/-- Modelled from the spec: hard cap on the aggregate `limit`
parameter. -/
def LIMIT_HARD_CAP : Nat := 100

/-- Modelled from the spec: `limit` must be a positive integer
(`InvalidInput` otherwise, before any store access) and is capped at
`LIMIT_HARD_CAP`. -/
def validateLimit (limit : Int) : Except QueryError Nat :=
  if limit ≤ 0 then .error .InvalidInput
  else .ok (min limit.toNat LIMIT_HARD_CAP)

/-- Insert into a list sorted by the boolean comparison. -/
def insertSorted {α : Type} (le : α → α → Bool) (x : α) : List α → List α
  | [] => [x]
  | y :: ys => if le x y then x :: y :: ys else y :: insertSorted le x ys

/-- Insertion sort by the boolean comparison (structurally recursive, so
concrete results evaluate inside the kernel). -/
def insertionSort {α : Type} (le : α → α → Bool) : List α → List α
  | [] => []
  | x :: xs => insertSorted le x (insertionSort le xs)

/-- Modelled from the spec: the distinct (source, dest) pairs appearing
among the routes (NULL endpoints cannot join a grouped pair). -/
def routePairs (db : SkyChatDb) : List (Int × Int) :=
  (db.routes.filterMap (fun r =>
    match r.source_airport_id, r.dest_airport_id with
    | some s, some d => some (s, d)
    | _, _ => none)).dedup

/-- Modelled from the spec: number of distinct airlines operating a
given (source, dest) pair. -/
def distinctAirlineCount (db : SkyChatDb) (p : Int × Int) : Nat :=
  ((db.routes.filterMap (fun r =>
    if r.source_airport_id = some p.1 ∧ r.dest_airport_id = some p.2
    then r.airline_id else none)).dedup).length

/-- Modelled from the spec: routes grouped by (source, dest) and ordered
by distinct-airline count descending. -/
def busiestAggregate (db : SkyChatDb) : List ((Int × Int) × Nat) :=
  insertionSort (fun p q => q.2 ≤ p.2)
    ((routePairs db).map (fun p => (p, distinctAirlineCount db p)))

/-- Modelled from the spec: `getBusiestRoutes(limit)` — positive-integer
validation with the hard cap, then the top entries of the busiest
aggregate. -/
def getBusiestRoutesSvc (svc : RouteGraphQueryService) (limit : Int) :
    Except QueryError (List ((Int × Int) × Nat)) :=
  match validateLimit limit with
  | .error e => .error e
  | .ok n => .ok ((busiestAggregate svc.db).take n)

/-- Modelled from the spec: distance of one route row under the
injected distance function; rows lacking an endpoint contribute 0 (the
spec's `distance_estimated` fallback). -/
def routeDist (svc : RouteGraphQueryService) (r : RouteRow) : ℚ :=
  match r.source_airport_id, r.dest_airport_id with
  | some s, some d => svc.dist s d
  | _, _ => 0

/-- Modelled from the spec: `getLongestRoutes(limit)` — routes ordered
by computed great-circle distance descending, after the same limit
validation. -/
def getLongestRoutesSvc (svc : RouteGraphQueryService) (limit : Int) :
    Except QueryError (List RouteRow) :=
  match validateLimit limit with
  | .error e => .error e
  | .ok n =>
      .ok ((insertionSort (fun r1 r2 =>
        decide (routeDist svc r2 ≤ routeDist svc r1)) svc.db.routes).take n)

/-- Modelled from the spec: out-degree of an airport — the count of
distinct destination airports among its outgoing routes. -/
def outDegree (db : SkyChatDb) (aid : Int) : Nat :=
  ((db.routes.filterMap (fun r =>
    if r.source_airport_id = some aid then r.dest_airport_id else none)).dedup).length

/-- Modelled from the spec: `getHubAirports(minRoutes)` — airports with
out-degree at least `minRoutes`, zero-out-degree airports excluded,
ordered by out-degree descending. -/
def getHubAirportsSvc (svc : RouteGraphQueryService) (minRoutes : Int) :
    List (AirportRow × Nat) :=
  insertionSort (fun p q => q.2 ≤ p.2)
    ((svc.db.airports.map (fun a => (a, outDegree svc.db a.airport_id))).filter
      (fun p => decide (minRoutes ≤ (p.2 : Int) ∧ 0 < p.2)))

/-- Modelled from the spec: all outgoing edge targets of an airport. -/
def edgeTargets (db : SkyChatDb) (aid : Int) : List Int :=
  (db.routes.filterMap (fun r =>
    if r.source_airport_id = some aid then r.dest_airport_id else none)).dedup

/-- Modelled from the spec: bounded path enumeration of
`findShortestPath` — expand outgoing edges, guard against revisiting an
airport on the candidate path, stop expanding a branch at the
destination, and stop after the hop budget. Returns the id sequences
after the source. -/
def pathsFrom (db : SkyChatDb) (cur dst : Int) (visited : List Int) :
    Nat → List (List Int)
  | 0 => []
  | h + 1 =>
      (edgeTargets db cur).flatMap (fun nxt =>
        if nxt ∈ visited then []
        else if nxt = dst then [[nxt]]
        else (pathsFrom db nxt dst (nxt :: visited) h).map (fun p => nxt :: p))

/-- A ranked path result: airport id sequence (including endpoints), hop
count and total injected distance (spec section 4.1). -/
structure PathResult where
  seq : List Int
  hops : Nat
  total_distance : ℚ
deriving DecidableEq

/-- Modelled from the spec: total injected distance along an id
sequence. -/
def pathDistance (svc : RouteGraphQueryService) : List Int → ℚ
  | a :: b :: rest => svc.dist a b + pathDistance svc (b :: rest)
  | _ => 0

/-- Modelled from the spec: number of ranked paths returned. -/
def SHORTEST_PATH_TOP_N : Nat := 5

/-- Modelled from the spec: `findShortestPath(from, to, maxHops)` —
`from == to` is `InvalidInput`; unresolvable codes are `NotFound`; no
path within the hop budget is a normal empty result; candidate paths
are ranked by (hop count, total distance) ascending, top 5 kept. -/
def findShortestPathSvc (svc : RouteGraphQueryService) (fromCode toCode : String)
    (maxHops : Nat) : Except QueryError (List PathResult) :=
  if jsToUpperCase fromCode = jsToUpperCase toCode then .error .InvalidInput
  else
    match resolveAirport svc.db fromCode, resolveAirport svc.db toCode with
    | none, _ => .error .NotFound
    | some _, none => .error .NotFound
    | some s, some d =>
        .ok ((insertionSort
          (fun p q => decide (p.hops < q.hops ∨
            (p.hops = q.hops ∧ p.total_distance ≤ q.total_distance)))
          ((pathsFrom svc.db s.airport_id d.airport_id [s.airport_id] maxHops).map
            (fun p =>
              { seq := s.airport_id :: p
                hops := p.length
                total_distance := pathDistance svc (s.airport_id :: p) }))).take
          SHORTEST_PATH_TOP_N)

/- ## Section G: the read operations as store transactions -/

/-- One parameterized read operation of the query component. -/
inductive ReadOp where
  | direct (fromCode toCode : String)
  | oneStop (fromCode toCode : String)
  | shortest (fromCode toCode : String) (maxHops : Nat)
  | busiest (limit : Int)
  | longest (limit : Int)
  | hubs (minRoutes : Int)
deriving DecidableEq

/-- The result payload of one read operation. -/
inductive ReadResult where
  | routes : Except QueryError (List RouteRow) → ReadResult
  | itins : Except QueryError (List OneStopItin) → ReadResult
  | paths : Except QueryError (List PathResult) → ReadResult
  | pairs : Except QueryError (List ((Int × Int) × Nat)) → ReadResult
  | hubList : List (AirportRow × Nat) → ReadResult

/-- Modelled from the spec: executing one read operation against the
store. The component is a pure read/query layer — every operation only
issues SELECTs, so the store state it hands back is the one it was
given. -/
def runRead (dist : Int → Int → ℚ) (op : ReadOp) (db : SkyChatDb) :
    ReadResult × SkyChatDb :=
  (match op with
   | .direct f t => .routes (findDirectRoutesSvc ⟨db, dist⟩ f t)
   | .oneStop f t => .itins (findOneStopRoutesSvc ⟨db, dist⟩ f t)
   | .shortest f t h => .paths (findShortestPathSvc ⟨db, dist⟩ f t h)
   | .busiest l => .pairs (getBusiestRoutesSvc ⟨db, dist⟩ l)
   | .longest l => .routes (getLongestRoutesSvc ⟨db, dist⟩ l)
   | .hubs m => .hubList (getHubAirportsSvc ⟨db, dist⟩ m),
   db)

/- ## Section H: concrete table states used by witnesses -/

/-- An `airports` row with the display-only columns NULL. -/
def mkAirport (i : Int) (nm ia ic : String) : AirportRow :=
  { airport_id := i, name := nm, city := none, country := none,
    iata := some ia, icao := some ic, latitude := none, longitude := none,
    altitude := none, timezone_offset := none, dst := none,
    tz_database := none, typ := none, src := none }

/-- An `airlines` row with the display-only columns NULL. -/
def mkAirline (i : Int) (nm : String) : AirlineRow :=
  { airline_id := i, name := nm, aliasName := none, iata := none,
    icao := none, callsign := none, country := none, active := some "Y" }

/-- A `routes` row with the free-text columns NULL and `stops = 0`. -/
def mkRoute (i : Int) (al s d : Option Int) (cs : Option String) : RouteRow :=
  { route_id := i, airline_code := none, airline_id := al,
    source_airport := none, source_airport_id := s, dest_airport := none,
    dest_airport_id := d, codeshare := cs, stops := some 0, equipment := none }

/-- A small consistent dataset: airports AAA, BBB, CCC; one airline;
edges AAA→BBB, BBB→CCC, AAA→CCC. -/
def exampleDb : SkyChatDb :=
  { airports := [mkAirport 1 "Alpha Field" "AAA" "KAAA",
                 mkAirport 2 "Bravo Field" "BBB" "KBBB",
                 mkAirport 3 "Charlie Field" "CCC" "KCCC"]
    airlines := [mkAirline 7 "Seven Air"]
    routes := [mkRoute 11 (some 7) (some 1) (some 2) none,
               mkRoute 12 (some 7) (some 2) (some 3) none,
               mkRoute 13 (some 7) (some 1) (some 3) none] }

/-- The example service: the example dataset with an everywhere-zero
injected distance function. -/
def exampleSvc : RouteGraphQueryService := ⟨exampleDb, fun _ _ => 0⟩

/-- A table state holding a self-loop route (source = dest = airport
1): every schema constraint is satisfied. -/
def selfLoopDb : SkyChatDb :=
  { airports := [mkAirport 1 "Alpha Field" "AAA" "KAAA"]
    airlines := []
    routes := [mkRoute 21 none (some 1) (some 1) none] }

/-- The self-loop row of `selfLoopDb`. -/
def selfLoopRoute : RouteRow := mkRoute 21 none (some 1) (some 1) none

/-- A table state with two routes sharing (source, dest) under distinct
airlines: the multigraph shape the spec describes. -/
def multiEdgeDb : SkyChatDb :=
  { airports := [mkAirport 1 "Alpha Field" "AAA" "KAAA",
                 mkAirport 2 "Bravo Field" "BBB" "KBBB"]
    airlines := [mkAirline 7 "Seven Air", mkAirline 8 "Eight Air"]
    routes := [mkRoute 31 (some 7) (some 1) (some 2) none,
               mkRoute 32 (some 8) (some 1) (some 2) none] }

/-- A table state where two `routes` rows share `route_id` — the
primary key the schema does enforce. -/
def dupRouteIdDb : SkyChatDb :=
  { airports := [mkAirport 1 "Alpha Field" "AAA" "KAAA",
                 mkAirport 2 "Bravo Field" "BBB" "KBBB"]
    airlines := []
    routes := [mkRoute 41 none (some 1) (some 2) none,
               mkRoute 41 none (some 2) (some 1) none] }

/-- A table state with two distinct airports sharing the non-null iata
code "AAA": every schema constraint is satisfied. -/
def dupIataDb : SkyChatDb :=
  { airports := [mkAirport 1 "First Field" "AAA" "KAAA",
                 mkAirport 2 "Second Field" "AAA" "KBBB"]
    airlines := []
    routes := [] }

/-- A table state where two airports share `airport_id` — the primary
key the schema does enforce. -/
def dupAirportIdDb : SkyChatDb :=
  { airports := [mkAirport 1 "First Field" "AAA" "KAAA",
                 mkAirport 1 "Second Field" "BBB" "KBBB"]
    airlines := []
    routes := [] }

/-- First leg of the example one-stop itinerary (AAA→BBB). -/
def cLeg1 : RouteRow := mkRoute 11 (some 7) (some 1) (some 2) none

/-- Second leg of the example one-stop itinerary (BBB→CCC). -/
def cLeg2 : RouteRow := mkRoute 12 (some 7) (some 2) (some 3) none

/-- The one-stop itinerary AAA→BBB→CCC of the example dataset. -/
def cItin : OneStopItin := { leg1 := cLeg1, leg2 := cLeg2, viaId := 2 }


/- ## Helper lemmas -/

/-- Folding the dedup step only ever keeps elements of the accumulator
or of the input list. -/
theorem mem_of_mem_dedupFold :
    ∀ (l acc : List OneStopItin) (x : OneStopItin),
    x ∈ l.foldl (fun acc i =>
      if acc.any (fun j => decide (itinKey j = itinKey i)) then acc else acc ++ [i]) acc →
    x ∈ acc ∨ x ∈ l := by
  intro l
  induction l with
  | nil => exact fun acc x h => Or.inl h
  | cons a as ih =>
    intro acc x h
    rw [List.foldl_cons] at h
    rcases ih _ x h with h2 | h2
    · split at h2
      · exact Or.inl h2
      · rcases List.mem_append.mp h2 with h3 | h3
        · exact Or.inl h3
        · simp only [List.mem_singleton] at h3
          exact Or.inr (h3 ▸ List.mem_cons_self a as)
    · exact Or.inr (List.mem_cons_of_mem a h2)

/-- Codeshare dedup returns a subcollection of its input. -/
theorem mem_of_mem_dedupItins (l : List OneStopItin) (x : OneStopItin)
    (h : x ∈ dedupItins l) : x ∈ l := by
  rcases mem_of_mem_dedupFold l [] x h with h2 | h2
  · cases h2
  · exact h2

/- ## Claim theorems -/

/-- Claim C1: every itinerary returned by the one-stop route lookup has
an intermediate airport whose id differs from the resolved source
airport's id and from the resolved destination airport's id. -/
theorem one_stop_intermediate_distinct (svc : RouteGraphQueryService)
    (fromCode toCode : String) (l : List OneStopItin)
    (h : findOneStopRoutesSvc svc fromCode toCode = .ok l)
    (it : OneStopItin) (hm : it ∈ l) :
    ∃ s d : AirportRow,
      resolveAirport svc.db fromCode = some s ∧
      resolveAirport svc.db toCode = some d ∧
      it.viaId ≠ s.airport_id ∧ it.viaId ≠ d.airport_id := by
  simp only [findOneStopRoutesSvc] at h
  split at h
  · cases h
  · split at h
    · cases h
    · cases h
    · rename_i s d hs hd
      injection h with hl
      subst hl
      have hbig := mem_of_mem_dedupItins _ _ ((List.take_subset _ _) hm)
      rcases List.mem_flatMap.mp hbig with ⟨r1, hr1, hfm⟩
      rcases List.mem_filterMap.mp hfm with ⟨r2, hr2, heqf⟩
      split at heqf
      · cases heqf
      · rename_i via hvia
        split at heqf
        · rename_i hc
          injection heqf with hit
          subst hit
          exact ⟨s, d, hs, hd, hc.2.2.1, hc.2.2.2⟩
        · cases heqf

/-- Witness for C1: on the example dataset, the returned AAA→BBB→CCC
itinerary's intermediate airport (id 2) differs from the resolved
endpoints (ids 1 and 3). -/
theorem one_stop_intermediate_distinct_witness :
    ∃ s d : AirportRow,
      resolveAirport exampleDb "AAA" = some s ∧
      resolveAirport exampleDb "CCC" = some d ∧
      cItin.viaId ≠ s.airport_id ∧ cItin.viaId ≠ d.airport_id :=
  one_stop_intermediate_distinct exampleSvc "AAA" "CCC" [cItin] rfl cItin (by simp)

/-- Claim C2, counterexample: the 4-character ICAO code "KJFK" does not
fit the Search page's route inputs, whose `maxLength` attribute is 3 —
so a 4-character ICAO code is not an accepted input there. -/
theorem search_page_rejects_icao_code : ¬ searchRouteInputAdmits "KJFK" := by decide

/-- Claim C2, amended: the route-search handler performs no 2–4
alphanumeric validation — any non-empty pair of inputs is forwarded,
normalized to uppercase (hence lookups are case-insensitive), while
the Search page's input fields cap entry at 3 characters, so a
4-character ICAO code cannot be submitted from that page. -/
theorem route_codes_uppercased_not_validated (withStop : Bool) (f t : String)
    (hf : f.isEmpty = false) (ht : t.isEmpty = false) :
    handleRouteSearch withStop f t =
      some (routeSearchRequest withStop (jsToUpperCase f) (jsToUpperCase t)) ∧
    (∀ g u : String, jsToUpperCase g = jsToUpperCase f →
      jsToUpperCase u = jsToUpperCase t → g.isEmpty = false → u.isEmpty = false →
      handleRouteSearch withStop g u = handleRouteSearch withStop f t) := by
  constructor
  · simp [handleRouteSearch, hf, ht]
  · intro g u hg hu hg2 hu2
    simp [handleRouteSearch, hf, ht, hg2, hu2, hg, hu]

/-- Witness for the amended C2: lowercase "jfk"/"lax" are forwarded
uppercased. -/
theorem route_codes_uppercased_not_validated_witness :
    handleRouteSearch false "jfk" "lax" =
      some (routeSearchRequest false (jsToUpperCase "jfk") (jsToUpperCase "lax")) ∧
    jsToUpperCase "jfk" = "JFK" :=
  ⟨(route_codes_uppercased_not_validated false "jfk" "lax" rfl rfl).1, rfl⟩

/-- Claim C3: each public API operation issues a GET against exactly
the REST endpoint listed in spec section 6. -/
theorem api_operations_match_rest_endpoints (f t : String) (n m : Int) :
    findDirectRoutesReq f t =
      ⟨"GET", API_BASE_URL ++ "/routes/direct?from=" ++ f ++ "&to=" ++ t⟩ ∧
    findRoutesWithStopReq f t =
      ⟨"GET", API_BASE_URL ++ "/routes/with-stop?from=" ++ f ++ "&to=" ++ t⟩ ∧
    findShortestPathReq f t =
      ⟨"GET", API_BASE_URL ++ "/routes/shortest-path?from=" ++ f ++ "&to=" ++ t⟩ ∧
    getBusiestRoutesReq n =
      ⟨"GET", API_BASE_URL ++ "/routes/busiest?limit=" ++ toString n⟩ ∧
    getLongestRoutesReq n =
      ⟨"GET", API_BASE_URL ++ "/routes/longest?limit=" ++ toString n⟩ ∧
    getHubAirportsReq m =
      ⟨"GET", API_BASE_URL ++ "/airports/hubs?min_routes=" ++ toString m⟩ := by
  refine ⟨?_, ?_, ?_, ?_, ?_, ?_⟩ <;>
    simp [findDirectRoutesReq, findRoutesWithStopReq, findShortestPathReq,
      getBusiestRoutesReq, getLongestRoutesReq, getHubAirportsReq, apiGet,
      String.append_assoc]

/-- Claim C4: the aggregate queries require a positive `limit`
(`InvalidInput` at 0 and -1), use default 10 (both in the API layer and
in the component), and hard-cap the returned row count at 100. -/
theorem aggregate_limit_positive_default_capped (svc : RouteGraphQueryService)
    (limit : Int) (l : List ((Int × Int) × Nat)) (lr : List RouteRow) :
    (limit ≤ 0 → getBusiestRoutesSvc svc limit = .error .InvalidInput ∧
                 getLongestRoutesSvc svc limit = .error .InvalidInput) ∧
    (getBusiestRoutesSvc svc limit = .ok l → l.length ≤ LIMIT_HARD_CAP) ∧
    (getLongestRoutesSvc svc limit = .ok lr → lr.length ≤ LIMIT_HARD_CAP) ∧
    getBusiestRoutesSvc svc 0 = .error .InvalidInput ∧
    getBusiestRoutesSvc svc (-1) = .error .InvalidInput ∧
    getLongestRoutesSvc svc 0 = .error .InvalidInput ∧
    getLongestRoutesSvc svc (-1) = .error .InvalidInput ∧
    LIMIT_DEFAULT = 10 ∧ apiBusiestDefaultLimit = 10 ∧ apiLongestDefaultLimit = 10 ∧
    LIMIT_HARD_CAP = 100 := by
  have hb : ∀ k : Int, k ≤ 0 → getBusiestRoutesSvc svc k = .error .InvalidInput ∧
      getLongestRoutesSvc svc k = .error .InvalidInput := by
    intro k hk
    constructor <;> simp [getBusiestRoutesSvc, getLongestRoutesSvc, validateLimit, hk]
  refine ⟨hb limit, ?_, ?_, (hb 0 (by norm_num)).1, (hb (-1) (by norm_num)).1,
    (hb 0 (by norm_num)).2, (hb (-1) (by norm_num)).2, rfl, rfl, rfl, rfl⟩
  · intro h
    simp only [getBusiestRoutesSvc] at h
    split at h
    · cases h
    · rename_i n heqv
      injection h with h2
      subst h2
      refine le_trans (List.length_take_le _ _) ?_
      simp only [validateLimit] at heqv
      split at heqv
      · cases heqv
      · injection heqv with h3
        subst h3
        exact min_le_right _ _
  · intro h
    simp only [getLongestRoutesSvc] at h
    split at h
    · cases h
    · rename_i n heqv
      injection h with h2
      subst h2
      refine le_trans (List.length_take_le _ _) ?_
      simp only [validateLimit] at heqv
      split at heqv
      · cases heqv
      · injection heqv with h3
        subst h3
        exact min_le_right _ _

/-- Witness for C4: on the example dataset, limit 0 yields
`InvalidInput`, and the result at limit 200 respects the hard cap. -/
theorem aggregate_limit_positive_default_capped_witness :
    getBusiestRoutesSvc exampleSvc 0 = .error .InvalidInput ∧
    (([((1, 2), 1), ((2, 3), 1), ((1, 3), 1)] : List ((Int × Int) × Nat)).length ≤
      LIMIT_HARD_CAP) := by
  have h := aggregate_limit_positive_default_capped exampleSvc 200
    [((1, 2), 1), ((2, 3), 1), ((1, 3), 1)] []
  have h0 := aggregate_limit_positive_default_capped exampleSvc 0 [] []
  exact ⟨(h0.1 (by norm_num)).1, h.2.1 rfl⟩

/-- Claim C5, counterexample: a table state whose only route is a
self-loop (source_airport_id = dest_airport_id = 1, both non-NULL)
satisfies every constraint the routes schema declares, so the data
model does not preserve the claimed invariant. -/
theorem routes_schema_admits_self_loop :
    schemaOk selfLoopDb ∧ selfLoopRoute ∈ selfLoopDb.routes ∧
    selfLoopRoute.source_airport_id = selfLoopRoute.dest_airport_id ∧
    selfLoopRoute.source_airport_id ≠ none :=
  ⟨by decide, by decide, by decide, by decide⟩

/-- Claim C5, amended: the schema admits several routes sharing one
(source, dest) pair under different airlines (the multigraph shape),
enforces `route_id` uniqueness, but declares no
`source_airport_id ≠ dest_airport_id` constraint — that invariant is a
dataset convention, not enforced by the data model. -/
theorem routes_schema_multigraph_pk_only :
    schemaOk multiEdgeDb ∧
    (multiEdgeDb.routes.map (fun r => (r.source_airport_id, r.dest_airport_id))) =
      [(some 1, some 2), (some 1, some 2)] ∧
    (multiEdgeDb.routes.map (fun r => r.airline_id)) = [some 7, some 8] ∧
    ¬ schemaOk dupRouteIdDb ∧
    schemaOk selfLoopDb := by decide

/-- Claim C6, counterexample: a table state with two distinct airports
both carrying the non-null iata "AAA" satisfies every constraint the
airports schema declares, refuting iata uniqueness as a data-model
property. -/
theorem airports_schema_admits_duplicate_iata :
    schemaOk dupIataDb ∧
    ¬ (∀ a1 ∈ dupIataDb.airports, ∀ a2 ∈ dupIataDb.airports,
        a1.airport_id ≠ a2.airport_id → a1.iata.isSome → a1.iata ≠ a2.iata) := by
  decide

/-- Claim C6, amended: the airports schema indexes iata with a plain
(non-UNIQUE) index, so distinct schema-valid airports may share a
non-null iata; only `airport_id`, the primary key, is enforced
unique. -/
theorem airports_schema_iata_index_not_unique :
    schemaOk dupIataDb ∧
    (dupIataDb.airports.map (fun a => a.iata)) = [some "AAA", some "AAA"] ∧
    (dupIataDb.airports.map (fun a => a.airport_id)) = [1, 2] ∧
    ¬ schemaOk dupAirportIdDb := by decide

/-- Claim C7: every frontend rendering of a distance value applies
JavaScript `Math.round`, and that rounding is nearest-integer: the
rendered integer is at least as close to the exact value as any other
integer. -/
theorem distance_rounding_at_presentation_only (v : ℚ) (hv : v ≠ 0) :
    chatMessageDistanceBadge (some v) = some (jsMathRound v) ∧
    routeCardDistanceValue (some v) = some (jsMathRound v) ∧
    airportCardDistanceValue (some v) = some (jsMathRound v) ∧
    networkFormatDistanceValue (some v) = some (jsMathRound v) ∧
    networkGraphPathDistanceValue v = jsMathRound v ∧
    ∀ n : ℤ, |v - (jsMathRound v : ℚ)| ≤ |v - (n : ℚ)| := by
  have hr : jsMathRound v = round v := by rw [jsMathRound, round_eq]
  refine ⟨?_, ?_, ?_, ?_, rfl, ?_⟩
  · simp [chatMessageDistanceBadge, hv]
  · simp [routeCardDistanceValue, hv]
  · simp [airportCardDistanceValue, hv]
  · simp [networkFormatDistanceValue, hv]
  · intro n; rw [hr]; exact round_le v n

/-- Witness for C7: 7/2 km renders as the rounded value 4. -/
theorem distance_rounding_at_presentation_only_witness :
    chatMessageDistanceBadge (some (7/2)) = some (jsMathRound (7/2)) ∧
    jsMathRound (7/2) = 4 := by
  refine ⟨(distance_rounding_at_presentation_only (7/2) (by norm_num)).1, ?_⟩
  rw [jsMathRound]
  norm_num

/-- Claim C8: on equal from/to codes the route-finder submission fails
with the distinctness error and issues no request, and the modelled
service operations report `InvalidInput` uniformly in the store, i.e.
before any store access could matter. -/
theorem equal_codes_fail_fast_before_store (f t : String)
    (hf : f.isEmpty = false) (heq : f = t) :
    (handleRouteFinderSubmit f t).errorMsg =
      some "Origin and destination must be different." ∧
    (handleRouteFinderSubmit f t).requests = [] ∧
    (∀ svc : RouteGraphQueryService, findDirectRoutesSvc svc f t = .error .InvalidInput) ∧
    (∀ svc : RouteGraphQueryService, findOneStopRoutesSvc svc f t = .error .InvalidInput) ∧
    (∀ (svc : RouteGraphQueryService) (h : Nat),
      findShortestPathSvc svc f t h = .error .InvalidInput) := by
  subst heq
  refine ⟨?_, ?_, ?_, ?_, ?_⟩ <;>
    simp [handleRouteFinderSubmit, findDirectRoutesSvc, findOneStopRoutesSvc,
      findShortestPathSvc, hf]

/-- Witness for C8: submitting JFK→JFK issues no request and the
direct lookup on the example dataset reports `InvalidInput`. -/
theorem equal_codes_fail_fast_before_store_witness :
    (handleRouteFinderSubmit "JFK" "JFK").requests = [] ∧
    findDirectRoutesSvc exampleSvc "JFK" "JFK" = .error .InvalidInput := by
  have h := equal_codes_fail_fast_before_store "JFK" "JFK" rfl rfl
  exact ⟨h.2.1, h.2.2.1 exampleSvc⟩

/-- Claim C9: every read operation leaves the store unchanged, and
running it a second time on the store it handed back yields the
identical outcome. -/
theorem read_operations_idempotent (dist : Int → Int → ℚ) (op : ReadOp)
    (db : SkyChatDb) :
    (runRead dist op db).2 = db ∧
    runRead dist op (runRead dist op db).2 = runRead dist op db := ⟨rfl, rfl⟩

/-- Claim C10: the classic-chat renderer shows as result cards exactly
a prefix of at most 8 items of the data list, and shows the
`+(n-8) more results` indicator precisely when the list is longer
than 8. -/
theorem chat_renderer_caps_result_cards {α : Type} (data : List α) :
    (renderedResultCards data).length = min chatResultCardLimit data.length ∧
    (∀ i : Nat, i < chatResultCardLimit → (renderedResultCards data)[i]? = data[i]?) ∧
    (chatResultCardLimit < data.length →
      moreResultsIndicator data = some (data.length - chatResultCardLimit)) ∧
    (data.length ≤ chatResultCardLimit → moreResultsIndicator data = none) := by
  refine ⟨List.length_take .., ?_, ?_, ?_⟩
  · intro i hi
    exact List.getElem?_take_of_lt hi
  · intro h; simp [moreResultsIndicator, h]
  · intro h; simp [moreResultsIndicator, Nat.not_lt.mpr h]

/-- Witness for C10: a 10-item list renders 8 cards and the indicator
reports 2 more results. -/
theorem chat_renderer_caps_result_cards_witness :
    moreResultsIndicator (List.range 10) = some 2 ∧
    (renderedResultCards (List.range 10)).length = min chatResultCardLimit 10 := by
  refine ⟨?_, ?_⟩
  · have h := (chat_renderer_caps_result_cards (List.range 10)).2.2.1 (by decide)
    simpa using h
  · simpa using (chat_renderer_caps_result_cards (List.range 10)).1
